import Mathlib

/-!
Verification of the AIAgentRaw question-answering system (src/main.py,
src/pdf.py, src/server.py) against its natural-language specification.

The repository wires a ReAct-style reasoning agent to two kinds of query
engines: pandas engines over CSV datasets and vector-index engines over PDF
corpora, exposed behind a Flask server with register/login/ask/upload
endpoints.  The shallow embedding below translates the repository's own code
(name derivation, index caching in `get_index`, engine dictionaries, the
one-shot `tools` list, the `register`, `ask_ai` and `upload_files` handlers)
into pure Lean functions over explicit state.  Components the repository only
calls (the ReAct agent loop, the pandas expression evaluator, the bcrypt
hash, the note tool) are modelled from the specification and marked as such
in their doc comments.
-/

namespace AIAgent

/-! ## Basic data model -/

/-- A raw document of a corpus (one chunk of text, as produced by the PDF
reader).  The embedding of a chunk is determined by its text, so a vector
index is determined by the list of documents it was built from. -/
abbrev Document := String

/-- A persisted vector index, identified by the data it was built from
(Chunks + Embeddings are a function of the source documents). -/
structure VectorIndex where
  source : List Document
deriving DecidableEq, Repr

/-- The external persisted-index store: an association of index names
(persist directories) to persisted indices.  `os.path.exists(index_name)`
is modelled as membership of the name. -/
abbrev IndexStore := List (String × VectorIndex)

/-- Lookup of a persisted index by name. -/
def IndexStore.find : IndexStore → String → Option VectorIndex
  | [], _ => none
  | (k, v) :: rest, n => if k = n then some v else IndexStore.find rest n

/-! ## `src/pdf.py`: `get_index`, name derivation, `load_pdfs`

`get_index(data, index_name)` checks `os.path.exists(index_name)`;
if absent it builds the index from the documents (one Embedding-Capability
call per document) and persists it before returning; if present it loads
the persisted index with no embedding calls.  The third component of the
result counts embedding calls made by the call. -/

def get_index (data : List Document) (index_name : String) (store : IndexStore) :
    VectorIndex × IndexStore × Nat :=
  match store.find index_name with
  | none =>
      let index : VectorIndex := ⟨data⟩
      (index, (index_name, index) :: store, data.length)
  | some index => (index, store, 0)

/-- Python `str.split(sep)` for a one-character separator, over the
character list of a string: `"a.b.c"` ↦ `["a","b","c"]`, `""` ↦ `[""]`. -/
def splitOnChar (c : Char) : List Char → List (List Char)
  | [] => [[]]
  | x :: rest =>
      let r := splitOnChar c rest
      if x = c then [] :: r
      else (x :: r.headI) :: r.tail

/-- `os.path.basename`: the part of the path after the last `/`. -/
def basename (p : String) : String :=
  ⟨(splitOnChar '/' p.data).getLastD []⟩

/-- Name derivation for an uploaded or configured file:
`os.path.basename(path).split('.')[0]` — the basename truncated at its
first dot (`src/main.py` line 17, `src/pdf.py` line 21, `src/server.py`
line 40). -/
def deriveName (p : String) : String :=
  ⟨(splitOnChar '.' (basename p).data).headI⟩

/-- Joining name fragments back with dots (inverse of splitting). -/
def joinDots : List (List Char) → List Char
  | [] => []
  | [x] => x
  | x :: rest => x ++ '.' :: joinDots rest

/-- What the spec's words describe: the file name with its directory and
its extension stripped, where stripping the extension removes the suffix
from the last dot only (as `os.path.splitext` does).  Used solely to
compare the spec's description with `deriveName`. -/
def specStripExtName (p : String) : String :=
  let b := basename p
  match (splitOnChar '.' b.data).reverse with
  | [] => b
  | [_] => b
  | _ :: rest => ⟨joinDots rest.reverse⟩

/-! ## Engine dictionaries

`engines` in `load_csvs` / `load_pdfs` and the module-level `csv_engines`
/ `pdf_engines` are Python dicts; `d[k] = v` and `d.update(...)` replace
the value of an existing key in place (keeping its position) and append
fresh keys in insertion order. -/

/-- An insertion-ordered string-keyed dictionary. -/
abbrev Dict (α : Type) := List (String × α)

/-- Key membership (`k in d`). -/
def Dict.hasKey (d : Dict α) (k : String) : Bool :=
  d.any (fun p => p.1 = k)

/-- Lookup (`d.get(k)` / `d[k]`). -/
def Dict.get? : Dict α → String → Option α
  | [], _ => none
  | (k, v) :: rest, n => if k = n then some v else Dict.get? rest n

/-- `d[k] = v`: replace the binding of an existing key in place, append a
fresh key at the end. -/
def Dict.insert (d : Dict α) (k : String) (v : α) : Dict α :=
  if d.hasKey k then
    d.map (fun p => if p.1 = k then (k, v) else p)
  else
    d ++ [(k, v)]

/-- The keys of a dictionary, in order. -/
def Dict.keys (d : Dict α) : List String :=
  d.map (fun p => p.1)

/-- `d.update(d2)`: insert every binding of `d2` into `d` in order. -/
def Dict.update (d d2 : Dict α) : Dict α :=
  d2.foldl (fun acc p => acc.insert p.1 p.2) d

/-- `load_pdfs(pdf_paths)` over an explicit mapping from each path to the
documents the PDF reader yields for it: builds (or cache-loads) the index
for each path under its derived name, threading the persisted-index store
and accumulating the embedding-call count. -/
def load_pdfs (paths : List (String × List Document)) (store : IndexStore) :
    Dict VectorIndex × IndexStore × Nat :=
  paths.foldl
    (fun acc path =>
      let r := get_index path.2 (deriveName path.1) acc.2.1
      (acc.1.insert (deriveName path.1) r.1, r.2.1, acc.2.2 + r.2.2))
    (([] : Dict VectorIndex), store, 0)

/-! ## Tabular data and pandas engines (`src/main.py`, `src/server.py`) -/

/-- A cell of a tabular dataset: a string or an integer (the inferred
column types the population dataset exercises). -/
inductive CellValue
  | str (s : String)
  | int (n : Int)
deriving DecidableEq, Repr

/-- The decimal digit character for `n < 10`. -/
def digitChar (n : Nat) : Char := Char.ofNat (48 + n)

/-- Decimal digits of `n`, most significant first (empty for `0`); the
fuel argument bounds the recursion and `n + 1` always suffices. -/
def natToStrAux : Nat → Nat → List Char
  | 0, _ => []
  | fuel + 1, n => if n = 0 then [] else natToStrAux fuel (n / 10) ++ [digitChar (n % 10)]

/-- Standard decimal rendering of a natural number. -/
def natToStr (n : Nat) : String :=
  if n = 0 then "0" else ⟨natToStrAux (n + 1) n⟩

/-- Standard decimal rendering of an integer (Python `str(int)`). -/
def intToStr : Int → String
  | .ofNat n => natToStr n
  | .negSucc n => "-" ++ natToStr (n + 1)

/-- `str()` of a cell value (Python's fixed string conversion). -/
def CellValue.toStr : CellValue → String
  | .str s => s
  | .int n => intToStr n

/-- A named tabular structure: column names and row data. -/
structure DataFrame where
  columns : List String
  rows : List (List CellValue)
deriving DecidableEq, Repr

/-- A `PandasQueryEngine` instance owns the dataframe it was constructed
from (`PandasQueryEngine(df=df, ...)`). -/
structure PandasQueryEngine where
  df : DataFrame
deriving DecidableEq, Repr

/-- `load_csvs(csv_paths)` over an explicit mapping from each path to the
dataframe `pd.read_csv` yields for it: one engine per path under its
derived name. -/
def load_csvs (paths : List (String × DataFrame)) : Dict PandasQueryEngine :=
  paths.foldl (fun acc p => acc.insert (deriveName p.1) ⟨p.2⟩) []

/-! ## Tools and the registry (`tools` lists of `src/main.py` / `src/server.py`) -/

/-- What backs a tool: the note sink, a pandas engine, or a vector-index
query engine. -/
inductive EngineRef
  | note
  | pandas (engine : PandasQueryEngine)
  | vector (index : VectorIndex)
deriving DecidableEq, Repr

/-- A named tool exposed to the agent (`QueryEngineTool` with its
`ToolMetadata`, or the note tool). -/
structure Tool where
  name : String
  description : String
  engine : EngineRef
deriving DecidableEq, Repr

/-- The `tools` list: the note tool, then one `QueryEngineTool` per CSV
engine named `{name}_data`, then one per PDF engine named `{name}_data`.
The note tool lives in `note_engine.py`, which is not part of the sources;
the specification fixes its existence but not its name, so the name is a
parameter. -/
def mkTools (noteName : String) (csvEngines : Dict PandasQueryEngine)
    (pdfEngines : Dict VectorIndex) : List Tool :=
  ⟨noteName, "note tool", .note⟩ ::
    (csvEngines.map (fun p =>
      ⟨p.1 ++ "_data", "This gives information about " ++ p.1 ++ " data",
        .pandas p.2⟩) ++
     pdfEngines.map (fun p =>
      ⟨p.1 ++ "_data", "This gives detailed information about " ++ p.1 ++ " the document",
        .vector p.2⟩))

/-! ## Server state (`src/server.py` module level) -/

/-- Content of a file as its reader sees it: a CSV parses to a dataframe,
a PDF yields documents, anything else is raw bytes. -/
inductive FileContent
  | csv (df : DataFrame)
  | pdf (docs : List Document)
  | other (raw : String)
deriving DecidableEq, Repr

/-- `pd.read_csv` at a path whose content is known (only ever applied to
CSV content, since the upload handler dispatches on the `.csv` suffix). -/
def dfOf : FileContent → DataFrame
  | .csv df => df
  | _ => ⟨[], []⟩

/-- `PDFReader().load_data` at a path whose content is known (only ever
applied to PDF content, since the upload handler dispatches on the `.pdf`
suffix). -/
def pdfDocsOf : FileContent → List Document
  | .pdf docs => docs
  | _ => []

/-- A registered user record: email and the stored password field. -/
structure UserRecord where
  email : String
  password : String
deriving DecidableEq, Repr

/-- The mutable module-level state of `src/server.py`: the persisted-index
store on disk, the two engine dictionaries, the `tools` list built once
at module load, the files saved under `uploads/`, the mock user database, and
the running count of Embedding-Capability calls. -/
structure ServerState where
  store : IndexStore
  csvEngines : Dict PandasQueryEngine
  pdfEngines : Dict VectorIndex
  tools : List Tool
  uploads : List (String × FileContent)
  users : Dict UserRecord
  embedCalls : Nat
deriving Repr

/-- Module-level startup of `src/server.py`: load the two configured CSVs
and the two configured PDFs, then build the `tools` list from the engine
dictionaries.  Parameters supply the contents of the `data/` files and the
pre-existing persisted-index store. -/
def startupState (noteName : String) (popDf movDf : DataFrame)
    (canDocs croDocs : List Document) (store0 : IndexStore) : ServerState :=
  let csvEngines := load_csvs
    [("data/population.csv", popDf), ("data/movies.csv", movDf)]
  let r := load_pdfs
    [("data/Canada.pdf", canDocs), ("data/Croatia.pdf", croDocs)] store0
  { store := r.2.1
    csvEngines := csvEngines
    pdfEngines := r.1
    tools := mkTools noteName csvEngines r.1
    uploads := []
    users := []
    embedCalls := r.2.2 }

/-! ## The `upload_files` endpoint (`src/server.py` lines 137–159) -/

/-- Python `str.endswith`. -/
def strEndsWith (s suff : String) : Bool := suff.data.isSuffixOf s.data

/-- Handling of one uploaded file: save it under `uploads/`, then update
`csv_engines` if the name ends in `.csv`, else update `pdf_engines` if it
ends in `.pdf`, else register nothing.  The `tools` list is not rebuilt. -/
def processUpload (st : ServerState) (file : String × FileContent) : ServerState :=
  let file_path := "uploads/" ++ file.1
  let st' := { st with uploads := st.uploads ++ [(file_path, file.2)] }
  if strEndsWith file.1 ".csv" then
    { st' with csvEngines :=
        st'.csvEngines.update (load_csvs [(file_path, dfOf file.2)]) }
  else if strEndsWith file.1 ".pdf" then
    let r := load_pdfs [(file_path, pdfDocsOf file.2)] st'.store
    { st' with pdfEngines := st'.pdfEngines.update r.1
               store := r.2.1
               embedCalls := st'.embedCalls + r.2.2 }
  else st'

/-- The `upload_files` handler: process every file, then respond
`{'message': 'Files uploaded successfully'}, 200` unconditionally. -/
def upload_files (st : ServerState) (files : List (String × FileContent)) :
    ServerState × String × Nat :=
  (files.foldl processUpload st, "Files uploaded successfully", 200)

/-! ## The `register` endpoint (`src/server.py` lines 79–101) -/

/-- Python truthiness of an optional request field: `not x` holds for a
missing field and for the empty string. -/
def isBlank : Option String → Bool
  | none => true
  | some s => s = ""

/-- The `register` handler over the external bcrypt hash (an opaque
capability): missing field → 400; existing username → 400; otherwise store
`{email, password: hash(password)}` and respond 201.  Returns the new user
store with the response message and status. -/
def register (users : Dict UserRecord) (hash : String → String)
    (email username password : Option String) :
    Dict UserRecord × String × Nat :=
  if isBlank email || isBlank username || isBlank password then
    (users, "Email, username, and password are required", 400)
  else if users.hasKey (username.getD "") then
    (users, "Username already exists", 400)
  else
    (users.insert (username.getD "")
      ⟨email.getD "", hash (password.getD "")⟩,
     "User registered successfully", 201)

/-! ## The `ask_ai` endpoint (`src/server.py` lines 120–135) -/

/-- A response of the question endpoint: an answer body or an error body,
each with its HTTP status. -/
inductive AskResponse
  | answer (text : String) (status : Nat)
  | error (text : String) (status : Nat)
deriving DecidableEq, Repr

/-- The `ask_ai` handler over the agent's query function (which returns an
answer or raises, modelled as `Except`): a missing or empty question is
rejected with 400 before the agent runs; otherwise the agent's answer is
stringified into a 200 response and a raised exception becomes a 500 error
response.  The second component counts `agent.query` invocations. -/
def ask_ai (question : Option String)
    (agentQuery : String → Except String String) : AskResponse × Nat :=
  if isBlank question then
    (.error "Question is required" 400, 0)
  else
    match agentQuery (question.getD "") with
    | .ok result => (.answer result 200, 1)
    | .error e => (.error e 500, 1)

/-! ## The Reasoning Agent loop

Modelled from the spec: the repository constructs `ReActAgent.from_tools`
(a library component whose loop is not among the sources); §4.5 of the
specification describes it as a Thinking → Acting → Observing loop that
finalizes when the Completion Capability's output is a final-answer
marker, treats an unknown tool name as a recoverable observation, and
fails with `IterationLimitExceeded` after a fixed maximum number of
Thinking cycles. -/

/-- One parsed output of the Completion Capability during a Thinking step:
either a final-answer marker or a tool action. -/
inductive ModelOutput
  | finalAnswer (text : String)
  | action (toolName : String) (toolInput : String)
deriving DecidableEq, Repr

/-- Whether a model output is the final-answer marker. -/
def ModelOutput.isFinal : ModelOutput → Bool
  | .finalAnswer _ => true
  | .action _ _ => false

/-- One Scratchpad record: `(thought, chosen tool, tool input, observation)`. -/
structure ScratchRecord where
  thought : String
  tool : String
  input : String
  observation : String
deriving DecidableEq, Repr

/-- Terminal outcome of one agent invocation. -/
inductive AgentOutcome
  | final (answer : String)
  | iterationLimitExceeded
deriving DecidableEq, Repr

/-- Acting on a chosen tool name: an unknown name becomes the recoverable
observation "no such tool"; a known tool is invoked through the supplied
tool semantics. -/
def invokeTool (tools : List Tool) (invoke : Tool → String → String)
    (name input : String) : String :=
  match tools.find? (fun t => t.name = name) with
  | none => "no such tool"
  | some t => invoke t input

/-- The Thinking → Acting → Observing loop with a fuel of remaining
Thinking cycles.  The Completion Capability is a function of the
Scratchpad so far, returning the raw thought and its parsed decision.
Returns the outcome and the number of Thinking cycles performed. -/
def agentLoop (complete : List ScratchRecord → String × ModelOutput)
    (tools : List Tool) (invoke : Tool → String → String) :
    Nat → List ScratchRecord → AgentOutcome × Nat
  | 0, _ => (.iterationLimitExceeded, 0)
  | n + 1, pad =>
      match complete pad with
      | (_, .finalAnswer a) => (.final a, 1)
      | (th, .action name input) =>
          let obs := invokeTool tools invoke name input
          let r := agentLoop complete tools invoke n
            (pad ++ [⟨th, name, input, obs⟩])
          (r.1, r.2 + 1)

/-- One full agent invocation: start Thinking with an empty Scratchpad and
the configured maximum number of iterations. -/
def runAgent (complete : List ScratchRecord → String × ModelOutput)
    (tools : List Tool) (invoke : Tool → String → String)
    (maxIter : Nat) : AgentOutcome × Nat :=
  agentLoop complete tools invoke maxIter []

/-! ## The Structured Query Engine's expression evaluator

Modelled from the spec: `PandasQueryEngine` is a library component whose
evaluator is not among the sources; §4.2 of the specification bounds it to
"a single expression over the tabular structure's rows/columns —
filtering, aggregation, selection — returning a scalar or small result",
evaluated in a sandbox exposing only the tabular structure, with
evaluation errors caught and classified. -/

/-- The whitelisted expression shape: the dataframe itself, column
selection, equality filtering, the aggregations count/sum/max, scalar
extraction, and literals. -/
inductive PandasExpr
  | table
  | lit (v : CellValue)
  | select (e : PandasExpr) (col : String)
  | filterEq (e : PandasExpr) (col : String) (v : CellValue)
  | countRows (e : PandasExpr)
  | sumCol (e : PandasExpr)
  | maxCol (e : PandasExpr)
  | first (e : PandasExpr)
deriving DecidableEq, Repr

/-- A value produced by evaluation: a table, a column (series), or a
scalar. -/
inductive PandasVal
  | table (df : DataFrame)
  | series (vs : List CellValue)
  | scalar (v : CellValue)
deriving DecidableEq, Repr

/-- The classified errors of the Structured Query Engine (§7). -/
inductive QueryError
  | queryTranslationError (msg : String)
  | queryExecutionError (msg : String)
deriving DecidableEq, Repr

/-- The integer content of a cell, if any. -/
def CellValue.int? : CellValue → Option Int
  | .int n => some n
  | .str _ => none

/-- The values of the column `c` of a table (missing cells in ragged rows
read as `0`). -/
def DataFrame.col? (df : DataFrame) (c : String) : Option (List CellValue) :=
  match df.columns.findIdx? (· = c) with
  | none => none
  | some i => some (df.rows.map (fun r => r.getD i (.int 0)))

/-- The series content of an evaluated value, if it is a series. -/
def PandasVal.series? : PandasVal → Option (List CellValue)
  | .series vs => some vs
  | _ => none

/-- Sum of a series of integers; `none` if some cell is not an integer. -/
def sumInts : List CellValue → Option Int
  | [] => some 0
  | v :: rest =>
      match v.int?, sumInts rest with
      | some n, some s => some (n + s)
      | _, _ => none

/-- Maximum of a nonempty series of integers; `none` on an empty series or
a non-integer cell. -/
def maxInts : List CellValue → Option Int
  | [] => none
  | [v] => v.int?
  | v :: rest =>
      match v.int?, maxInts rest with
      | some n, some m => some (max n m)
      | _, _ => none

/-- The sandboxed evaluator: a total function from a whitelisted
expression and the dataframe to a value or a classified error.  It
consults nothing but the expression and the dataframe. -/
def evalExpr : PandasExpr → DataFrame → Except QueryError PandasVal
  | .table, df => .ok (.table df)
  | .lit v, _ => .ok (.scalar v)
  | .select e c, df =>
      match evalExpr e df with
      | .ok (.table t) =>
          match t.col? c with
          | none => .error (.queryExecutionError ("KeyError: " ++ c))
          | some vs => .ok (.series vs)
      | .ok _ => .error (.queryExecutionError "selection applies to a table")
      | .error err => .error err
  | .filterEq e c v, df =>
      match evalExpr e df with
      | .ok (.table t) =>
          match t.columns.findIdx? (· = c) with
          | none => .error (.queryExecutionError ("KeyError: " ++ c))
          | some i =>
              .ok (.table ⟨t.columns, t.rows.filter (fun r => r.getD i (.int 0) = v)⟩)
      | .ok _ => .error (.queryExecutionError "filtering applies to a table")
      | .error err => .error err
  | .countRows e, df =>
      match evalExpr e df with
      | .ok (.table t) => .ok (.scalar (.int t.rows.length))
      | .ok (.series vs) => .ok (.scalar (.int vs.length))
      | .ok (.scalar _) => .error (.queryExecutionError "count applies to a table or series")
      | .error err => .error err
  | .sumCol e, df =>
      match evalExpr e df with
      | .ok v =>
          match v.series? with
          | none => .error (.queryExecutionError "sum applies to a series")
          | some vs =>
              match sumInts vs with
              | none => .error (.queryExecutionError "sum of non-numeric series")
              | some s => .ok (.scalar (.int s))
      | .error err => .error err
  | .maxCol e, df =>
      match evalExpr e df with
      | .ok v =>
          match v.series? with
          | none => .error (.queryExecutionError "max applies to a series")
          | some vs =>
              match maxInts vs with
              | none => .error (.queryExecutionError "max of empty or non-numeric series")
              | some m => .ok (.scalar (.int m))
      | .error err => .error err
  | .first e, df =>
      match evalExpr e df with
      | .ok v =>
          match v.series? with
          | none => .error (.queryExecutionError "first applies to a series")
          | some [] => .error (.queryExecutionError "index out of bounds")
          | some (x :: _) => .ok (.scalar x)
      | .error err => .error err

/-- The fixed string conversion applied to the evaluation result before it
is returned (Python `str()`). -/
def valToString : PandasVal → String
  | .scalar v => v.toStr
  | .series vs => String.intercalate "\x0a" (vs.map CellValue.toStr)
  | .table df => String.intercalate "\x0a"
      (df.rows.map (fun r => String.intercalate " " (r.map CellValue.toStr)))

/-- The Structured Query Engine's answer path over a deterministic
Completion Capability (prompt → expression): evaluate the produced
expression against the engine's dataframe and stringify the result. -/
def structuredAnswer (complete : DataFrame → String → PandasExpr)
    (df : DataFrame) (q : String) : Except QueryError String :=
  (evalExpr (complete df q) df).map valToString

/-- A sequence of invocations of one engine in call order. -/
def runQuestions (complete : DataFrame → String → PandasExpr)
    (df : DataFrame) (qs : List String) : List (Except QueryError String) :=
  qs.map (structuredAnswer complete df)

/-! ## Concrete instances used by the testable properties -/

/-- The population dataset of the spec's deterministic-answer property. -/
def populationDf : DataFrame :=
  ⟨["Country", "Population"],
   [[.str "Canada", .int 38000000], [.str "Croatia", .int 3900000]]⟩

/-- The question of the spec's deterministic-answer property. -/
def canadaQuestion : String := "What is the population of Canada?"

/-- The whitelisted expression answering the Canada question:
`df[df['Country'] == 'Canada']['Population'].values[0]`. -/
def canadaExpr : PandasExpr :=
  .first (.select (.filterEq .table "Country" (.str "Canada")) "Population")

/-- Modelled from the spec: a deterministic stubbed Completion Capability
for the Structured Query Engine, mapping the Canada question to the
expression above and any other prompt to a row count. -/
def canadaStub : DataFrame → String → PandasExpr :=
  fun _ q => if q = canadaQuestion then canadaExpr else .countRows .table

/-! ## Dictionary lemmas -/

theorem dict_get?_map_replace {α : Type} (d : Dict α) (n : String) (v : α)
    (h : Dict.hasKey d n = true) :
    Dict.get? (d.map (fun p => if p.1 = n then (n, v) else p)) n = some v := by
  induction d with
  | nil => simp [Dict.hasKey] at h
  | cons p rest ih =>
      obtain ⟨k, w⟩ := p
      by_cases hp : k = n
      · subst hp
        simp only [List.map_cons]
        simp only [if_true]
        simp [Dict.get?]
      · have hrest : Dict.hasKey rest n = true := by
          simpa [Dict.hasKey, hp] using h
        simp only [List.map_cons]
        rw [show ((if (k, w).1 = n then (n, v) else (k, w)) = (k, w)) from if_neg hp]
        simpa [Dict.get?, hp] using ih hrest

theorem dict_get?_append_single {α : Type} (d : Dict α) (n : String) (v : α)
    (h : Dict.hasKey d n = false) :
    Dict.get? (d ++ [(n, v)]) n = some v := by
  induction d with
  | nil => simp [Dict.get?]
  | cons p rest ih =>
      obtain ⟨k, w⟩ := p
      have hp : ¬ k = n := by
        intro hc
        simp [Dict.hasKey, hc] at h
      have hrest : Dict.hasKey rest n = false := by
        simpa [Dict.hasKey, hp] using h
      simpa [Dict.get?, hp] using ih hrest

theorem dict_get?_insert_self {α : Type} (d : Dict α) (n : String) (v : α) :
    Dict.get? (Dict.insert d n v) n = some v := by
  unfold Dict.insert
  cases h : Dict.hasKey d n with
  | true => simpa [h] using dict_get?_map_replace d n v h
  | false => simpa [h] using dict_get?_append_single d n v h

theorem dict_hasKey_insert_self {α : Type} (d : Dict α) (n : String) (v : α) :
    Dict.hasKey (Dict.insert d n v) n = true := by
  unfold Dict.insert
  cases h : Dict.hasKey d n with
  | true =>
      simp only [h, if_true]
      simp only [Dict.hasKey, List.any_map] at h ⊢
      rcases List.any_eq_true.mp h with ⟨p, hp, hpn⟩
      refine List.any_eq_true.mpr ⟨p, hp, ?_⟩
      have hpn' : p.1 = n := by simpa using hpn
      simp [Function.comp, hpn']
  | false =>
      simp only [h, Bool.false_eq_true, if_false]
      simp [Dict.hasKey]

theorem dict_keys_insert_existing {α : Type} (d : Dict α) (n : String) (v : α)
    (h : Dict.hasKey d n = true) :
    Dict.keys (Dict.insert d n v) = Dict.keys d := by
  unfold Dict.insert Dict.keys
  simp only [h, if_true, List.map_map]
  apply List.map_congr_left
  intro p _
  by_cases hp : p.1 = n
  · simp [Function.comp, hp]
  · simp [Function.comp, hp]

/-! ## Claim C1: the persisted-index cache of `get_index` -/

/-- C1: for every corpus name, the index is persisted to the store before
`get_index` returns (the store maps the name to the returned index on both
paths), and a second `get_index` call with the same name — with any
document payload — performs zero Embedding-Capability calls, returns the
same index as the first call, and leaves the store unchanged: the call is
idempotent with respect to embedding work. -/
theorem get_index_cache_idempotent (data data' : List Document) (name : String)
    (store : IndexStore) :
    (get_index data name store).2.1.find name = some (get_index data name store).1 ∧
    (get_index data' name (get_index data name store).2.1).2.2 = 0 ∧
    (get_index data' name (get_index data name store).2.1).1 =
      (get_index data name store).1 ∧
    (get_index data' name (get_index data name store).2.1).2.1 =
      (get_index data name store).2.1 := by
  cases h : store.find name with
  | none => simp [get_index, h, IndexStore.find]
  | some idx => simp [get_index, h]

/-! ## Claim C2: re-registration of a document source named `report` -/

/-- The server state after registering document source `report` with
documents A and then re-registering `report` with documents B, starting
from the configured startup state with an empty persisted-index store. -/
def reportScenario : ServerState :=
  (upload_files
    ((upload_files
       (startupState "note_saver" populationDf ⟨["Title"], []⟩
         ["can doc"] ["cro doc"] [])
       [("report.pdf", .pdf ["report content A"])]).1)
    [("report.pdf", .pdf ["report content B"])]).1

/-- C2 fails on the code: after registering `report` with documents A and
re-registering it with documents B, the tool list presented to the agent
contains zero (not one) tools named `report_data` — it is unchanged from
startup, since `upload_files` never rebuilds `tools` — and the engines
dictionary entry for `report` is the index persisted at the first
registration, built from documents A, because the second `load_pdfs`
call hits the cache of `get_index` instead of rebuilding from B. -/
theorem report_reregistration_stale :
    (reportScenario.tools.filter (fun t => t.name = "report_data")).length = 0 ∧
    reportScenario.pdfEngines.get? "report" = some ⟨["report content A"]⟩ ∧
    reportScenario.tools =
      (startupState "note_saver" populationDf ⟨["Title"], []⟩
        ["can doc"] ["cro doc"] []).tools := by
  exact ⟨by decide, by decide, by decide⟩

/-! ## Claim C3: name derivation from an uploaded file -/

/-- C3 as stated fails on the code: for the path `data/my.report.pdf` the
code derives `my` (the basename truncated at its first dot), while the
file name with directory and extension stripped is `my.report`. -/
theorem deriveName_not_extension_strip :
    deriveName "data/my.report.pdf" = "my" ∧
    specStripExtName "data/my.report.pdf" = "my.report" ∧
    deriveName "data/my.report.pdf" ≠ specStripExtName "data/my.report.pdf" := by
  exact ⟨by decide, by decide, by decide⟩

/-- C3 (amended): the derived name is a deterministic function of the
file's basename — the basename truncated at its first dot, which for the
usual single-dot file names coincides with stripping the extension
(`uploads/report.pdf` derives `report`) — so re-uploading a file with the
same name derives the same key and replaces the existing source's engine
in place instead of creating a new entry. -/
theorem deriveName_deterministic_update :
    (∀ p₁ p₂ : String, basename p₁ = basename p₂ → deriveName p₁ = deriveName p₂) ∧
    (∀ (d : Dict VectorIndex) (n : String) (v₁ v₂ : VectorIndex),
      ((d.insert n v₁).insert n v₂).keys = (d.insert n v₁).keys ∧
      ((d.insert n v₁).insert n v₂).get? n = some v₂) ∧
    deriveName "uploads/report.pdf" = "report" := by
  refine ⟨?_, ?_, by decide⟩
  · intro p₁ p₂ h
    unfold deriveName
    rw [h]
  · intro d n v₁ v₂
    exact ⟨dict_keys_insert_existing _ n v₂ (dict_hasKey_insert_self d n v₁),
           dict_get?_insert_self _ n v₂⟩

/-- Witness for the amended C3 at concrete inputs: two paths sharing the
basename `report.pdf` derive the same name, and a repeated insert under
the key `report` keeps one entry holding the second engine. -/
theorem deriveName_deterministic_update_witness :
    deriveName "data/report.pdf" = deriveName "uploads/report.pdf" ∧
    ((Dict.insert (Dict.insert ([] : Dict VectorIndex) "report" ⟨["a"]⟩)
        "report" ⟨["b"]⟩).keys =
      (Dict.insert ([] : Dict VectorIndex) "report" ⟨["a"]⟩).keys ∧
     (Dict.insert (Dict.insert ([] : Dict VectorIndex) "report" ⟨["a"]⟩)
        "report" ⟨["b"]⟩).get? "report" = some ⟨["b"]⟩) :=
  ⟨deriveName_deterministic_update.1 "data/report.pdf" "uploads/report.pdf" (by decide),
   deriveName_deterministic_update.2.1 [] "report" ⟨["a"]⟩ ⟨["b"]⟩⟩

/-! ## Claim C4: uniqueness of tool names in the registry -/

theorem processUpload_tools (st : ServerState) (f : String × FileContent) :
    (processUpload st f).tools = st.tools := by
  unfold processUpload
  by_cases h1 : strEndsWith f.1 ".csv"
  · simp [h1]
  · by_cases h2 : strEndsWith f.1 ".pdf"
    · simp [h1, h2]
    · simp [h1, h2]

theorem upload_files_tools (files : List (String × FileContent)) (st : ServerState) :
    (upload_files st files).1.tools = st.tools := by
  unfold upload_files
  induction files generalizing st with
  | nil => rfl
  | cons f rest ih =>
      simp only [List.foldl_cons]
      rw [ih (processUpload st f), processUpload_tools]

theorem startup_tool_names (noteName : String) (popDf movDf : DataFrame)
    (canDocs croDocs : List Document) (store0 : IndexStore) :
    (startupState noteName popDf movDf canDocs croDocs store0).tools.map Tool.name =
      [noteName, "population_data", "movies_data", "Canada_data", "Croatia_data"] := by
  have hp : deriveName "data/population.csv" = "population" := by decide
  have hm : deriveName "data/movies.csv" = "movies" := by decide
  have hc : deriveName "data/Canada.pdf" = "Canada" := by decide
  have hr : deriveName "data/Croatia.pdf" = "Croatia" := by decide
  have k1 : Dict.hasKey ([("population", (⟨popDf⟩ : PandasQueryEngine))]) "movies" = false := by
    simp [Dict.hasKey]
  simp [startupState, load_csvs, load_pdfs, mkTools, hp, hm, hc, hr,
        Dict.insert, Dict.hasKey]

/-- C4: the tool names presented to the agent are pairwise distinct at
every instant: the startup registry holds the note tool and the four
`{name}_data` tools under five distinct names (whenever the note tool's
name is not itself one of the derived names), and no sequence of runtime
registrations through the upload endpoint ever changes the `tools` list,
so the uniqueness invariant persists. -/
theorem registry_tool_names_unique (noteName : String) (popDf movDf : DataFrame)
    (canDocs croDocs : List Document) (store0 : IndexStore)
    (files : List (String × FileContent))
    (h : noteName ∉ ["population_data", "movies_data", "Canada_data", "Croatia_data"]) :
    (upload_files (startupState noteName popDf movDf canDocs croDocs store0) files).1.tools
      = (startupState noteName popDf movDf canDocs croDocs store0).tools ∧
    ((upload_files (startupState noteName popDf movDf canDocs croDocs store0)
        files).1.tools.map Tool.name).Nodup := by
  refine ⟨upload_files_tools files _, ?_⟩
  rw [upload_files_tools files _, startup_tool_names]
  simp only [List.nodup_cons, List.mem_cons]
  refine ⟨?_, by decide⟩
  simpa using h

/-- Witness for C4: with the note tool named `note_saver`, empty data
files and one runtime CSV registration, the tool list is unchanged and
its names are pairwise distinct. -/
theorem registry_tool_names_unique_witness :
    (upload_files (startupState "note_saver" ⟨[], []⟩ ⟨[], []⟩ [] [] [])
        [("report.csv", .csv ⟨[], []⟩)]).1.tools
      = (startupState "note_saver" ⟨[], []⟩ ⟨[], []⟩ [] [] []).tools ∧
    ((upload_files (startupState "note_saver" ⟨[], []⟩ ⟨[], []⟩ [] [] [])
        [("report.csv", .csv ⟨[], []⟩)]).1.tools.map Tool.name).Nodup :=
  registry_tool_names_unique "note_saver" ⟨[], []⟩ ⟨[], []⟩ [] [] []
    [("report.csv", .csv ⟨[], []⟩)] (by decide)

/-! ## Claim C5: validation at the question interface -/

/-- C5: a missing or empty question is rejected with the 400 validation
response before the agent's reasoning loop starts (zero `agent.query`
invocations), and every non-empty question yields either the agent's
answer as a 200 response or the raised error classified into a 500 error
response. -/
theorem ask_ai_validation (agentQuery : String → Except String String) :
    ask_ai none agentQuery = (.error "Question is required" 400, 0) ∧
    ask_ai (some "") agentQuery = (.error "Question is required" 400, 0) ∧
    (∀ s : String, s ≠ "" →
      (∃ a, agentQuery s = .ok a ∧
        ask_ai (some s) agentQuery = (.answer a 200, 1)) ∨
      (∃ e, agentQuery s = .error e ∧
        ask_ai (some s) agentQuery = (.error e 500, 1))) := by
  refine ⟨rfl, rfl, ?_⟩
  intro s hs
  cases hq : agentQuery s with
  | ok a => exact Or.inl ⟨a, rfl, by simp [ask_ai, isBlank, hs, hq]⟩
  | error e => exact Or.inr ⟨e, rfl, by simp [ask_ai, isBlank, hs, hq]⟩

/-- A concrete agent query function for the C5 witness. -/
def echoAgent : String → Except String String := fun q => .ok ("answer to " ++ q)

/-- Witness for C5 at the non-empty question `hello`. -/
theorem ask_ai_validation_witness :
    (∃ a, echoAgent "hello" = .ok a ∧
      ask_ai (some "hello") echoAgent = (.answer a 200, 1)) ∨
    (∃ e, echoAgent "hello" = .error e ∧
      ask_ai (some "hello") echoAgent = (.error e 500, 1)) :=
  (ask_ai_validation echoAgent).2.2 "hello" (by decide)

/-! ## Claim C9: upload of a file that is neither CSV nor PDF -/

/-- C9: a file whose name ends in neither `.csv` nor `.pdf` is saved to
the uploads directory, registers no engine and no tool (every engine
dictionary, the store and the tool list are unchanged), and the endpoint
still responds with the success message and status 200. -/
theorem upload_other_saved_no_engine (st : ServerState) (fname : String)
    (content : FileContent)
    (h1 : strEndsWith fname ".csv" = false)
    (h2 : strEndsWith fname ".pdf" = false) :
    (upload_files st [(fname, content)]).1.uploads =
      st.uploads ++ [("uploads/" ++ fname, content)] ∧
    (upload_files st [(fname, content)]).1.csvEngines = st.csvEngines ∧
    (upload_files st [(fname, content)]).1.pdfEngines = st.pdfEngines ∧
    (upload_files st [(fname, content)]).1.tools = st.tools ∧
    (upload_files st [(fname, content)]).1.store = st.store ∧
    (upload_files st [(fname, content)]).2 = ("Files uploaded successfully", 200) := by
  simp [upload_files, processUpload, h1, h2]

/-- An empty server state for the C9 witness. -/
def emptyState : ServerState :=
  { store := [], csvEngines := [], pdfEngines := [], tools := [],
    uploads := [], users := [], embedCalls := 0 }

/-- Witness for C9 at the upload of `notes.txt`. -/
theorem upload_other_saved_no_engine_witness :
    (upload_files emptyState [("notes.txt", .other "hi")]).1.uploads =
      emptyState.uploads ++ [("uploads/" ++ "notes.txt", .other "hi")] ∧
    (upload_files emptyState [("notes.txt", .other "hi")]).1.csvEngines =
      emptyState.csvEngines ∧
    (upload_files emptyState [("notes.txt", .other "hi")]).1.pdfEngines =
      emptyState.pdfEngines ∧
    (upload_files emptyState [("notes.txt", .other "hi")]).1.tools = emptyState.tools ∧
    (upload_files emptyState [("notes.txt", .other "hi")]).1.store = emptyState.store ∧
    (upload_files emptyState [("notes.txt", .other "hi")]).2 =
      ("Files uploaded successfully", 200) :=
  upload_other_saved_no_engine emptyState "notes.txt" (.other "hi")
    (by decide) (by decide)

/-! ## Claim C6: bounded termination of the reasoning loop -/

theorem agentLoop_cycles_le (complete : List ScratchRecord → String × ModelOutput)
    (tools : List Tool) (invoke : Tool → String → String) :
    ∀ (n : Nat) (pad : List ScratchRecord),
      (agentLoop complete tools invoke n pad).2 ≤ n := by
  intro n
  induction n with
  | zero => intro pad; simp [agentLoop]
  | succ k ih =>
      intro pad
      unfold agentLoop
      rcases h : complete pad with ⟨th, out⟩
      cases out with
      | finalAnswer a => simp
      | action name input =>
          simp only []
          exact Nat.succ_le_succ (ih _)

theorem agentLoop_never_final (complete : List ScratchRecord → String × ModelOutput)
    (tools : List Tool) (invoke : Tool → String → String)
    (h : ∀ pad, ((complete pad).2).isFinal = false) :
    ∀ (n : Nat) (pad : List ScratchRecord),
      agentLoop complete tools invoke n pad = (.iterationLimitExceeded, n) := by
  intro n
  induction n with
  | zero => intro pad; rfl
  | succ k ih =>
      intro pad
      unfold agentLoop
      rcases hc : complete pad with ⟨th, out⟩
      cases out with
      | finalAnswer a =>
          have := h pad
          rw [hc] at this
          simp [ModelOutput.isFinal] at this
      | action name input => simp [ih]

/-- C6: for every Completion Capability, tool set and tool semantics, an
agent run performs at most the configured maximum number of Thinking
cycles, and when the Completion Capability never emits a final-answer
marker the run terminates with IterationLimitExceeded after exactly the
configured maximum number of Thinking cycles — never more. -/
theorem agent_bounded_termination
    (complete : List ScratchRecord → String × ModelOutput)
    (tools : List Tool) (invoke : Tool → String → String) (maxIter : Nat) :
    (runAgent complete tools invoke maxIter).2 ≤ maxIter ∧
    ((∀ pad, ((complete pad).2).isFinal = false) →
      runAgent complete tools invoke maxIter = (.iterationLimitExceeded, maxIter)) :=
  ⟨agentLoop_cycles_le complete tools invoke maxIter [],
   fun h => agentLoop_never_final complete tools invoke h maxIter []⟩

/-- A stubbed Completion Capability that never emits a final-answer
marker: every Thinking step chooses a tool action. -/
def neverFinalStub : List ScratchRecord → String × ModelOutput :=
  fun _ => ("I should look this up", .action "population_data" "population of Canada")

/-- A stubbed tool semantics for the C6 witness. -/
def constObservation : Tool → String → String := fun _ _ => "observation"

/-- Witness for C6: with max iterations = 3 and the never-final stub, the
run stops with IterationLimitExceeded after exactly 3 Thinking cycles. -/
theorem agent_bounded_termination_witness :
    runAgent neverFinalStub [] constObservation 3 = (.iterationLimitExceeded, 3) :=
  (agent_bounded_termination neverFinalStub [] constObservation 3).2 (fun _ => rfl)

/-! ## Claim C10: atomicity and hashing at the register endpoint -/

/-- C10: a registration with a username already present in the user store
returns the 400 error and leaves the store unchanged (likewise a request
with a missing field), and a successful registration stores exactly the
record whose password field is the bcrypt hash of the submitted password —
whenever the hash differs from the plaintext, the stored password field is
not the plaintext. -/
theorem register_atomic_and_hashed (users : Dict UserRecord)
    (hash : String → String) (email username password : Option String) :
    ((isBlank email || isBlank username || isBlank password) = true →
      register users hash email username password =
        (users, "Email, username, and password are required", 400)) ∧
    ((isBlank email || isBlank username || isBlank password) = false →
      Dict.hasKey users (username.getD "") = true →
      register users hash email username password =
        (users, "Username already exists", 400)) ∧
    ((isBlank email || isBlank username || isBlank password) = false →
      Dict.hasKey users (username.getD "") = false →
      register users hash email username password =
        (Dict.insert users (username.getD "")
          ⟨email.getD "", hash (password.getD "")⟩,
         "User registered successfully", 201) ∧
      Dict.get? (register users hash email username password).1 (username.getD "") =
        some ⟨email.getD "", hash (password.getD "")⟩ ∧
      (hash (password.getD "") ≠ password.getD "" →
        ∀ u : UserRecord,
          Dict.get? (register users hash email username password).1
            (username.getD "") = some u →
          u.password ≠ password.getD "")) := by
  refine ⟨?_, ?_, ?_⟩
  · intro h
    simp [register, h]
  · intro h hk
    simp [register, h, hk]
  · intro h hk
    have hreg : register users hash email username password =
        (Dict.insert users (username.getD "")
          ⟨email.getD "", hash (password.getD "")⟩,
         "User registered successfully", 201) := by
      simp [register, h, hk]
    refine ⟨hreg, ?_, ?_⟩
    · rw [hreg]
      exact dict_get?_insert_self users _ _
    · intro hne u hu
      rw [hreg] at hu
      rw [dict_get?_insert_self users _ _] at hu
      cases hu
      simpa using hne

/-- A concrete opaque hash for the C10 witness. -/
def stubHash : String → String := fun s => "$2b$12$" ++ s

/-- Witness for C10: an empty-field request and a duplicate-username
request leave the store unchanged, and a fresh registration stores the
hash of the password, which differs from the plaintext. -/
theorem register_atomic_and_hashed_witness :
    register [] stubHash (some "a@b.com") none (some "pw") =
      ([], "Email, username, and password are required", 400) ∧
    register [("alice", ⟨"a@b.com", "h"⟩)] stubHash
        (some "a@b.com") (some "alice") (some "pw") =
      ([("alice", ⟨"a@b.com", "h"⟩)], "Username already exists", 400) ∧
    register [] stubHash (some "a@b.com") (some "alice") (some "pw") =
      (Dict.insert [] "alice" ⟨"a@b.com", stubHash "pw"⟩,
       "User registered successfully", 201) ∧
    (∀ u : UserRecord,
      Dict.get? (register [] stubHash (some "a@b.com") (some "alice")
          (some "pw")).1 "alice" = some u →
      u.password ≠ "pw") :=
  ⟨(register_atomic_and_hashed [] stubHash (some "a@b.com") none (some "pw")).1
     (by decide),
   (register_atomic_and_hashed [("alice", ⟨"a@b.com", "h"⟩)] stubHash
      (some "a@b.com") (some "alice") (some "pw")).2.1 (by decide) (by decide),
   ((register_atomic_and_hashed [] stubHash (some "a@b.com") (some "alice")
      (some "pw")).2.2 (by decide) (by decide)).1,
   fun u hu =>
     ((register_atomic_and_hashed [] stubHash (some "a@b.com") (some "alice")
        (some "pw")).2.2 (by decide) (by decide)).2.2 (by decide) u hu⟩

/-! ## Claim C7: the evaluator is sandboxed to the tabular structure -/

/-- All cells of a dataset, in row order. -/
def DataFrame.cellsOf (df : DataFrame) : List CellValue := df.rows.join

/-- All cells of an evaluated value. -/
def PandasVal.cells : PandasVal → List CellValue
  | .table df => df.rows.join
  | .series vs => vs
  | .scalar v => [v]

/-- The literal cell values embedded in an expression. -/
def PandasExpr.lits : PandasExpr → List CellValue
  | .table => []
  | .lit v => [v]
  | .select e _ => e.lits
  | .filterEq e _ v => v :: e.lits
  | .countRows e => e.lits
  | .sumCol e => e.lits
  | .maxCol e => e.lits
  | .first e => e.lits

theorem evalExpr_classified (e : PandasExpr) (df : DataFrame) :
    (∃ r, evalExpr e df = .ok r) ∨
    (∃ msg, evalExpr e df = .error (.queryExecutionError msg)) := by
  induction e with
  | table => exact Or.inl ⟨_, rfl⟩
  | lit v => exact Or.inl ⟨_, rfl⟩
  | select e c ih =>
      rcases ih with ⟨r, hr⟩ | ⟨m, hm⟩
      · cases r with
        | table t =>
            cases hc : DataFrame.col? t c with
            | none => exact Or.inr ⟨_, by simp [evalExpr, hr, hc]; rfl⟩
            | some vs => exact Or.inl ⟨_, by simp [evalExpr, hr, hc]; rfl⟩
        | series vs => exact Or.inr ⟨_, by simp [evalExpr, hr]; rfl⟩
        | scalar v => exact Or.inr ⟨_, by simp [evalExpr, hr]; rfl⟩
      · exact Or.inr ⟨m, by simp [evalExpr, hm]⟩
  | filterEq e c v ih =>
      rcases ih with ⟨r, hr⟩ | ⟨m, hm⟩
      · cases r with
        | table t =>
            cases hc : t.columns.findIdx? (fun x => x = c) with
            | none => exact Or.inr ⟨_, by simp [evalExpr, hr, hc]; rfl⟩
            | some i => exact Or.inl ⟨_, by simp [evalExpr, hr, hc]; rfl⟩
        | series vs => exact Or.inr ⟨_, by simp [evalExpr, hr]; rfl⟩
        | scalar w => exact Or.inr ⟨_, by simp [evalExpr, hr]; rfl⟩
      · exact Or.inr ⟨m, by simp [evalExpr, hm]⟩
  | countRows e ih =>
      rcases ih with ⟨r, hr⟩ | ⟨m, hm⟩
      · cases r with
        | table t => exact Or.inl ⟨_, by simp [evalExpr, hr]; rfl⟩
        | series vs => exact Or.inl ⟨_, by simp [evalExpr, hr]; rfl⟩
        | scalar w => exact Or.inr ⟨_, by simp [evalExpr, hr]; rfl⟩
      · exact Or.inr ⟨m, by simp [evalExpr, hm]⟩
  | sumCol e ih =>
      rcases ih with ⟨r, hr⟩ | ⟨m, hm⟩
      · cases r with
        | table t => exact Or.inr ⟨_, by simp [evalExpr, hr, PandasVal.series?]; rfl⟩
        | series vs =>
            cases hs : sumInts vs with
            | none => exact Or.inr ⟨_, by simp [evalExpr, hr, PandasVal.series?, hs]; rfl⟩
            | some n => exact Or.inl ⟨_, by simp [evalExpr, hr, PandasVal.series?, hs]; rfl⟩
        | scalar w => exact Or.inr ⟨_, by simp [evalExpr, hr, PandasVal.series?]; rfl⟩
      · exact Or.inr ⟨m, by simp [evalExpr, hm]⟩
  | maxCol e ih =>
      rcases ih with ⟨r, hr⟩ | ⟨m, hm⟩
      · cases r with
        | table t => exact Or.inr ⟨_, by simp [evalExpr, hr, PandasVal.series?]; rfl⟩
        | series vs =>
            cases hs : maxInts vs with
            | none => exact Or.inr ⟨_, by simp [evalExpr, hr, PandasVal.series?, hs]; rfl⟩
            | some n => exact Or.inl ⟨_, by simp [evalExpr, hr, PandasVal.series?, hs]; rfl⟩
        | scalar w => exact Or.inr ⟨_, by simp [evalExpr, hr, PandasVal.series?]; rfl⟩
      · exact Or.inr ⟨m, by simp [evalExpr, hm]⟩
  | first e ih =>
      rcases ih with ⟨r, hr⟩ | ⟨m, hm⟩
      · cases r with
        | table t => exact Or.inr ⟨_, by simp [evalExpr, hr, PandasVal.series?]; rfl⟩
        | series vs =>
            cases vs with
            | nil => exact Or.inr ⟨_, by simp [evalExpr, hr, PandasVal.series?]; rfl⟩
            | cons x xs => exact Or.inl ⟨_, by simp [evalExpr, hr, PandasVal.series?]; rfl⟩
        | scalar w => exact Or.inr ⟨_, by simp [evalExpr, hr, PandasVal.series?]; rfl⟩
      · exact Or.inr ⟨m, by simp [evalExpr, hm]⟩

theorem mem_of_getD_str {row : List CellValue} {i : Nat} {s : String}
    (h : row.getD i (.int 0) = .str s) : CellValue.str s ∈ row := by
  have hgd : row.getD i (.int 0) = (row.get? i).getD (.int 0) := rfl
  rw [hgd] at h
  cases hq : row.get? i with
  | none => rw [hq] at h; cases h
  | some x =>
      rw [hq] at h
      simp only [Option.getD_some] at h
      rw [← h]
      exact List.get?_mem hq

theorem evalExpr_str_provenance (e : PandasExpr) (df : DataFrame) :
    ∀ r, evalExpr e df = .ok r → ∀ s, CellValue.str s ∈ r.cells →
      CellValue.str s ∈ df.cellsOf ∨ CellValue.str s ∈ e.lits := by
  induction e with
  | table =>
      intro r hr s hs
      simp only [evalExpr] at hr
      cases hr
      exact Or.inl hs
  | lit v =>
      intro r hr s hs
      simp only [evalExpr] at hr
      cases hr
      have hv : CellValue.str s = v := by simpa [PandasVal.cells] using hs
      right
      simp [PandasExpr.lits, ← hv]
  | select e c ih =>
      intro r hr s hs
      cases he : evalExpr e df with
      | error err => simp [evalExpr, he] at hr
      | ok v =>
          cases v with
          | table t =>
              cases hc : DataFrame.col? t c with
              | none => simp [evalExpr, he, hc] at hr
              | some vs =>
                  simp only [evalExpr, he, hc] at hr
                  cases hr
                  simp only [DataFrame.col?] at hc
                  cases hidx : t.columns.findIdx? (fun x => x = c) with
                  | none => rw [hidx] at hc; cases hc
                  | some i =>
                      rw [hidx] at hc
                      simp only [Option.some_inj] at hc
                      rw [← hc] at hs
                      rcases List.mem_map.mp hs with ⟨row, hrow, hgetd⟩
                      have hmem : CellValue.str s ∈ row := mem_of_getD_str hgetd
                      exact ih (.table t) he s (List.mem_join.mpr ⟨row, hrow, hmem⟩)
          | series vs => simp [evalExpr, he] at hr
          | scalar w => simp [evalExpr, he] at hr
  | filterEq e c v ih =>
      intro r hr s hs
      cases he : evalExpr e df with
      | error err => simp [evalExpr, he] at hr
      | ok w =>
          cases w with
          | table t =>
              cases hidx : t.columns.findIdx? (fun x => x = c) with
              | none => simp [evalExpr, he, hidx] at hr
              | some i =>
                  simp only [evalExpr, he, hidx] at hr
                  cases hr
                  rcases List.mem_join.mp hs with ⟨row, hrow, hsrow⟩
                  have hrow' : row ∈ t.rows := List.mem_of_mem_filter hrow
                  rcases ih (.table t) he s (List.mem_join.mpr ⟨row, hrow', hsrow⟩)
                    with h | h
                  · exact Or.inl h
                  · exact Or.inr (List.mem_cons_of_mem _ h)
          | series vs => simp [evalExpr, he] at hr
          | scalar w' => simp [evalExpr, he] at hr
  | countRows e ih =>
      intro r hr s hs
      cases he : evalExpr e df with
      | error err => simp [evalExpr, he] at hr
      | ok v =>
          cases v with
          | table t =>
              simp only [evalExpr, he] at hr
              cases hr
              simp [PandasVal.cells] at hs
          | series vs =>
              simp only [evalExpr, he] at hr
              cases hr
              simp [PandasVal.cells] at hs
          | scalar w => simp [evalExpr, he] at hr
  | sumCol e ih =>
      intro r hr s hs
      cases he : evalExpr e df with
      | error err => simp [evalExpr, he] at hr
      | ok v =>
          cases v with
          | table t => simp [evalExpr, he, PandasVal.series?] at hr
          | series vs =>
              cases hsum : sumInts vs with
              | none => simp [evalExpr, he, PandasVal.series?, hsum] at hr
              | some n =>
                  simp only [evalExpr, he, PandasVal.series?, hsum] at hr
                  cases hr
                  simp [PandasVal.cells] at hs
          | scalar w => simp [evalExpr, he, PandasVal.series?] at hr
  | maxCol e ih =>
      intro r hr s hs
      cases he : evalExpr e df with
      | error err => simp [evalExpr, he] at hr
      | ok v =>
          cases v with
          | table t => simp [evalExpr, he, PandasVal.series?] at hr
          | series vs =>
              cases hmax : maxInts vs with
              | none => simp [evalExpr, he, PandasVal.series?, hmax] at hr
              | some n =>
                  simp only [evalExpr, he, PandasVal.series?, hmax] at hr
                  cases hr
                  simp [PandasVal.cells] at hs
          | scalar w => simp [evalExpr, he, PandasVal.series?] at hr
  | first e ih =>
      intro r hr s hs
      cases he : evalExpr e df with
      | error err => simp [evalExpr, he] at hr
      | ok v =>
          cases v with
          | table t => simp [evalExpr, he, PandasVal.series?] at hr
          | series vs =>
              cases vs with
              | nil => simp [evalExpr, he, PandasVal.series?] at hr
              | cons x xs =>
                  simp only [evalExpr, he, PandasVal.series?] at hr
                  cases hr
                  have hx : CellValue.str s = x := by
                    simpa [PandasVal.cells] using hs
                  exact ih (.series (x :: xs)) he s
                    (by rw [← hx]; exact List.mem_cons_self _ _)
          | scalar w => simp [evalExpr, he, PandasVal.series?] at hr

/-- C7: every whitelisted expression evaluates totally — to a value or to
a classified `QueryExecutionError`, never an uncaught crash — and the
evaluation exposes only the tabular structure: every string cell of an
evaluation result occurs in the dataset itself or as a literal of the
expression, so no evaluated expression can reach data, I/O or code outside
the dataframe it is bound to. -/
theorem sandboxed_evaluation (e : PandasExpr) (df : DataFrame) :
    ((∃ r, evalExpr e df = .ok r) ∨
     (∃ msg, evalExpr e df = .error (.queryExecutionError msg))) ∧
    (∀ r, evalExpr e df = .ok r → ∀ s, CellValue.str s ∈ r.cells →
      CellValue.str s ∈ df.cellsOf ∨ CellValue.str s ∈ e.lits) :=
  ⟨evalExpr_classified e df, evalExpr_str_provenance e df⟩

/-- Witness for C7: selecting the `Country` column of the population
dataset yields the string `Canada`, which indeed originates in the
dataset's own cells or the expression's literals. -/
theorem sandboxed_evaluation_witness :
    CellValue.str "Canada" ∈ populationDf.cellsOf ∨
    CellValue.str "Canada" ∈ (PandasExpr.select .table "Country").lits :=
  (sandboxed_evaluation (.select .table "Country") populationDf).2
    (.series [.str "Canada", .str "Croatia"]) rfl "Canada" (by decide)

/-! ## Claim C8: deterministic structured answer -/

/-- C8: for the population dataset and the question "What is the
population of Canada?", the Structured Query Engine returns the string
`38000000` — produced by the fixed string conversion, not reformatted —
at every position of every sequence of invocations, so the answer is
identical on every run with no dependence on call order. -/
theorem structured_answer_deterministic (qs : List String) (i : Nat)
    (h : qs.get? i = some canadaQuestion) :
    (runQuestions canadaStub populationDf qs).get? i = some (.ok "38000000") := by
  unfold runQuestions
  rw [List.get?_map, h]
  rfl

/-- Witness for C8: a singleton run answers `38000000` at position 0. -/
theorem structured_answer_deterministic_witness :
    (runQuestions canadaStub populationDf [canadaQuestion]).get? 0 =
      some (.ok "38000000") :=
  structured_answer_deterministic [canadaQuestion] 0 rfl

end AIAgent
